import Mathlib

/-!
Verification of the MacPulse monitoring engine (src/macpulse.py).

The development shallowly embeds the alert engine of macpulse.py: the data
model (metric snapshot, threshold configuration, enabled-check set, cooldown
state), the threshold evaluator `check_thresholds`, the cooldown filter
`filter_by_cooldown`, the dispatch tail of `run_monitor`, the state store
`load_state`/`save_state`, the delivery routine `send_imessage`, and the
metric collectors with their subprocess error behaviour.

Modelling conventions:
* Python floats are modelled as rationals (ℚ); all the comparisons at issue
  are order comparisons, which ℚ reproduces exactly.
* Python dicts keyed by metric-id strings are modelled as association lists
  with dict semantics: assignment replaces an existing key in place and
  appends a fresh key at the end; lookup returns the first (unique) match.
* Fallible Python code is modelled in the `Except String` monad: an uncaught
  Python exception is `Except.error name`.  A call to `subprocess.run` is
  modelled by a `SubprocBeh` argument describing what the environment did:
  either the runtime raised (`subprocess.TimeoutExpired` when the timeout
  expired, `FileNotFoundError` when the binary is missing) or the process
  completed with a return code and captured stdout.
* The clock value returned by an internal `time.time()` call is passed as an
  explicit `now`/`sendTime` argument, so that theorems can quantify over it.
* Regex scanning of sampler stdout (pure, exception-free text processing) is
  abstracted as a total parse-function argument, matching the specification,
  which treats sampler output parsing as an external capability outside the
  core; every control-flow decision and every exception path of the Python
  samplers is modelled explicitly.
-/

/-- Load averages, from get_uptime_and_load (macpulse.py lines 170-173);
informational only, never alertable. -/
structure LoadAvg where
  load_1m : ℚ
  load_5m : ℚ
  load_15m : ℚ

/-- Battery reading, from get_battery_info (lines 158-167): pmset reports an
integer percentage and a state string such as "charging" or "discharging". -/
structure BatteryInfo where
  percent : Int
  state : String

/-- One snapshot of readings, as consumed by check_thresholds.  A field is
`none` when the metric key is absent from the Python dict or its value is
None; check_thresholds treats those two cases identically via
metrics.get(name) is not None. -/
structure MetricSnapshot where
  cpu : Option ℚ
  memory : Option ℚ
  disk : Option ℚ
  temperature : Option ℚ
  battery : Option BatteryInfo
  load : LoadAvg

/-- Threshold configuration, from settings.json (DEFAULT_SETTINGS lines
34-40): one scalar per alertable dimension. -/
structure ThresholdConfig where
  cpu_percent : ℚ
  memory_percent : ℚ
  disk_percent : ℚ
  battery_below : ℚ
  temperature_c : ℚ

/-- Enabled-check set, from settings.json "checks" (lines 42-48): truthiness
of checks.get(name) for each dimension. -/
structure EnabledChecks where
  cpu : Bool
  memory : Bool
  disk : Bool
  temperature : Bool
  battery : Bool

/-- Cooldown state: the JSON object persisted at ~/.macpulse_state.json,
mapping metric id to last-alerted-at unix timestamp. -/
abbrev CooldownState := List (String × ℚ)

/-- Python dict lookup state[k] as an Option (none when the key is absent). -/
def dictLookup (s : CooldownState) (k : String) : Option ℚ :=
  (s.find? (fun p => p.1 = k)).map (fun p => p.2)

/-- Python state.get(k, d). -/
def dictGet (s : CooldownState) (k : String) (d : ℚ) : ℚ :=
  (dictLookup s k).getD d

/-- Python dict assignment state[k] = v: replaces the value of an existing
key in place, appends a fresh key at the end. -/
def dictSet (s : CooldownState) (k : String) (v : ℚ) : CooldownState :=
  if s.any (fun p => p.1 = k) then
    s.map (fun p => if p.1 = k then (k, v) else p)
  else s ++ [(k, v)]

/-- One non-battery block of check_thresholds (lines 182-196): the cpu,
memory, disk and temperature blocks all have this exact shape, gated by the
check being enabled and the value being non-None, firing on value ≥
threshold. -/
def dimCheck (enabled : Bool) (value : Option ℚ) (threshold : ℚ) (name : String)
    (msg : ℚ → String) : List (String × String) :=
  if enabled then
    match value with
    | some v => if v ≥ threshold then [(name, msg v)] else []
    | none => []
  else []

/-- The battery block of check_thresholds (lines 198-201): fires when the
state is not "charging" and the percentage is ≤ the battery_below
threshold. -/
def batteryCheck (enabled : Bool) (battery : Option BatteryInfo) (threshold : ℚ) :
    List (String × String) :=
  if enabled then
    match battery with
    | some b =>
      if b.state ≠ "charging" ∧ (b.percent : ℚ) ≤ threshold then
        [("battery", "Battery at " ++ toString b.percent ++ "% (threshold: "
          ++ toString threshold ++ "%)")]
      else []
    | none => []
  else []

/-- check_thresholds (lines 179-203): appends the per-dimension alerts in the
fixed order cpu, memory, disk, temperature, battery. -/
def check_thresholds (metrics : MetricSnapshot) (thresholds : ThresholdConfig)
    (checks : EnabledChecks) : List (String × String) :=
  dimCheck checks.cpu metrics.cpu thresholds.cpu_percent "cpu"
    (fun v => "CPU usage at " ++ toString v ++ "% (threshold: "
      ++ toString thresholds.cpu_percent ++ "%)")
  ++ dimCheck checks.memory metrics.memory thresholds.memory_percent "memory"
    (fun v => "Memory usage at " ++ toString v ++ "% (threshold: "
      ++ toString thresholds.memory_percent ++ "%)")
  ++ dimCheck checks.disk metrics.disk thresholds.disk_percent "disk"
    (fun v => "Disk usage at " ++ toString v ++ "% (threshold: "
      ++ toString thresholds.disk_percent ++ "%)")
  ++ dimCheck checks.temperature metrics.temperature thresholds.temperature_c "temperature"
    (fun v => "CPU temp at " ++ toString v ++ "°C (threshold: "
      ++ toString thresholds.temperature_c ++ "°C)")
  ++ batteryCheck checks.battery metrics.battery thresholds.battery_below

/-- filter_by_cooldown (lines 206-214).  The Python source reads the clock
internally (now = time.time() at line 208); the `now` argument here models
the value that internal call returned, so that properties can quantify over
it. -/
def filter_by_cooldown (alerts : List (String × String)) (state : CooldownState)
    (cooldown_minutes : ℚ) (now : ℚ) : List (String × String) :=
  alerts.foldl
    (fun filtered p =>
      if now - dictGet state p.1 0 ≥ cooldown_minutes * 60 then filtered ++ [p]
      else filtered)
    []

/-- Outcome of the dispatch tail of run_monitor (lines 302-314), named after
the specification's outcome enum. -/
inductive DispatchOutcome where
  | sent
  | deliveryFailed
  | noRecipient
deriving DecidableEq

/-- The message body composed at line 300: a host header then one line per
eligible violation, in order. -/
def compose_body (hostname : String) (to_send : List (String × String)) : String :=
  "[MacPulse] " ++ hostname ++ "\n"
    ++ String.intercalate "\n" (to_send.map (fun p => "- " ++ p.2))

/-- The state-mutation loop of run_monitor (lines 309-310): for each eligible
alert, state[metric] = now. -/
def advance_state (state : CooldownState) (to_send : List (String × String))
    (now : ℚ) : CooldownState :=
  to_send.foldl (fun st p => dictSet st p.1 now) state

/-- The dispatch tail of run_monitor (lines 302-314), reached with a
non-empty to_send list: with no recipient the body is only printed and the
state is untouched; otherwise send_imessage is attempted, and only on success
is the state advanced (at the post-delivery clock reading, line 308) and
saved.  The third component records whether a delivery call was made. -/
def run_monitor_dispatch (to_send : List (String × String)) (recipient : String)
    (state : CooldownState) (sendOk : Bool) (sendTime : ℚ) :
    CooldownState × DispatchOutcome × Bool :=
  if recipient = "" then (state, DispatchOutcome.noRecipient, false)
  else if sendOk then (advance_state state to_send sendTime, DispatchOutcome.sent, true)
  else (state, DispatchOutcome.deliveryFailed, true)

/-- Behaviour of one subprocess.run call, as determined by the environment:
the runtime raised (subprocess.TimeoutExpired on timeout, FileNotFoundError
on a missing binary) or the process completed with a return code and
stdout. -/
inductive SubprocBeh where
  | raises (exc : String)
  | completes (returncode : Int) (stdout : String)

/-- get_cpu_usage (lines 77-88): runs top with timeout=10 and scans stdout;
the regex scan (abstracted as parseTop) returns a value or None and cannot
raise; a raise from subprocess.run is not caught.  The return code is never
inspected. -/
def get_cpu_usage (parseTop : String → Option ℚ) (topRun : SubprocBeh) :
    Except String (Option ℚ) :=
  match topRun with
  | SubprocBeh.raises e => Except.error e
  | SubprocBeh.completes _ out => Except.ok (parseTop out)

/-- get_memory_usage (lines 91-118): runs sysctl (timeout=5), converts its
stdout with int(...) — which raises ValueError on unparsable output — then
runs vm_stat (timeout=5) and computes a used percentage from the page
statistics (pure arithmetic, abstracted as usedPct); dividing by a zero
hw.memsize raises ZeroDivisionError.  No raise is caught, and the function
never returns None. -/
def get_memory_usage (usedPct : Int → String → ℚ) (sysctlRun vmstatRun : SubprocBeh) :
    Except String (Option ℚ) :=
  match sysctlRun with
  | SubprocBeh.raises e => Except.error e
  | SubprocBeh.completes _ out =>
    match out.trim.toInt? with
    | none => Except.error "ValueError"
    | some totalBytes =>
      match vmstatRun with
      | SubprocBeh.raises e => Except.error e
      | SubprocBeh.completes _ vout =>
        if totalBytes = 0 then Except.error "ZeroDivisionError"
        else Except.ok (some (usedPct totalBytes vout))

/-- One candidate command of get_cpu_temperature (lines 130-153): only
FileNotFoundError is caught (falling through to the next candidate); any
other raise — in particular subprocess.TimeoutExpired — propagates.  On
completion the value is returned only when the return code is 0 and the
regex matches; otherwise the next candidate is tried. -/
def tryTempCmd (parse : String → Option ℚ) (run : SubprocBeh)
    (next : Except String (Option ℚ)) : Except String (Option ℚ) :=
  match run with
  | SubprocBeh.raises e => if e = "FileNotFoundError" then next else Except.error e
  | SubprocBeh.completes rc out =>
    if rc = 0 then
      match parse out with
      | some t => Except.ok (some t)
      | none => next
    else next

/-- get_cpu_temperature (lines 127-155): tries osx-cpu-temp under two paths,
then sudo powermetrics, then gives up with None. -/
def get_cpu_temperature (parseTemp parsePM : String → Option ℚ)
    (run1 run2 runPM : SubprocBeh) : Except String (Option ℚ) :=
  tryTempCmd parseTemp run1
    (tryTempCmd parseTemp run2
      (tryTempCmd parsePM runPM (Except.ok none)))

/-- get_battery_info (lines 158-167): runs pmset (timeout=5) and scans stdout
(abstracted as parseBatt, returning None when the regex does not match); a
raise from subprocess.run is not caught. -/
def get_battery_info (parseBatt : String → Option BatteryInfo) (pmsetRun : SubprocBeh) :
    Except String (Option BatteryInfo) :=
  match pmsetRun with
  | SubprocBeh.raises e => Except.error e
  | SubprocBeh.completes _ out => Except.ok (parseBatt out)

/-- Environment of one collect_metrics invocation: the behaviour of each
subprocess call, the pure parse functions for each utility's stdout, the
disk-usage percentage computed by shutil.disk_usage, and the load
averages. -/
structure SamplerWorld where
  parseTop : String → Option ℚ
  topRun : SubprocBeh
  usedPct : Int → String → ℚ
  sysctlRun : SubprocBeh
  vmstatRun : SubprocBeh
  diskPct : ℚ
  parseTemp : String → Option ℚ
  parsePM : String → Option ℚ
  tempRun1 : SubprocBeh
  tempRun2 : SubprocBeh
  tempRunPM : SubprocBeh
  parseBatt : String → Option BatteryInfo
  pmsetRun : SubprocBeh
  loadAvg : LoadAvg

/-- collect_metrics (lines 231-245): calls each enabled sampler in order with
no try/except of its own, so any exception raised by a sampler propagates and
aborts the run. -/
def collect_metrics (checks : EnabledChecks) (w : SamplerWorld) :
    Except String MetricSnapshot := do
  let cpu ← if checks.cpu then get_cpu_usage w.parseTop w.topRun else pure none
  let memory ←
    if checks.memory then get_memory_usage w.usedPct w.sysctlRun w.vmstatRun else pure none
  let disk := if checks.disk then some w.diskPct else none
  let temperature ←
    if checks.temperature then
      get_cpu_temperature w.parseTemp w.parsePM w.tempRun1 w.tempRun2 w.tempRunPM
    else pure none
  let battery ← if checks.battery then get_battery_info w.parseBatt w.pmsetRun else pure none
  pure { cpu := cpu, memory := memory, disk := disk, temperature := temperature,
         battery := battery, load := w.loadAvg }

/-- load_state (lines 62-66): when the state file exists its contents are fed
to json.load with no try/except, so unparsable contents (modelled as parsed =
none) raise json.JSONDecodeError; only an absent file yields the empty
mapping. -/
def load_state (fileExists : Bool) (parsed : Option CooldownState) :
    Except String CooldownState :=
  if fileExists then
    match parsed with
    | some st => Except.ok st
    | none => Except.error "json.JSONDecodeError"
  else Except.ok []

/-- The quoting of the message body at line 219: backslashes then double
quotes are escaped for the AppleScript string literal. -/
def escape_message (message : String) : String :=
  (message.replace "\\" "\\\\").replace "\"" "\\\""

/-- send_imessage (lines 217-225): builds the AppleScript and runs osascript
with timeout=30 and no try/except; a non-zero exit is turned into false, but
a raise from subprocess.run (timeout, missing binary) propagates. -/
def send_imessage (recipient message : String) (osascriptRun : SubprocBeh) :
    Except String Bool :=
  let escaped := escape_message message
  let _script := "tell application \"Messages\" to send \"" ++ escaped
    ++ "\" to buddy \"" ++ recipient ++ "\""
  match osascriptRun with
  | SubprocBeh.raises e => Except.error e
  | SubprocBeh.completes rc _ => if rc ≠ 0 then Except.ok false else Except.ok true

/-! ### Helper lemmas for the cooldown filter -/

/-- Appending-accumulator loops compute List.filter. -/
theorem foldl_push_filter {α : Type} (p : α → Prop) [DecidablePred p] :
    ∀ (l acc : List α),
      l.foldl (fun acc x => if p x then acc ++ [x] else acc) acc
        = acc ++ l.filter (fun x => decide (p x)) := by
  intro l
  induction l with
  | nil => intro acc; simp
  | cons x xs ih =>
    intro acc
    by_cases h : p x <;> simp [List.foldl_cons, h, ih]

/-- The loop of filter_by_cooldown computes List.filter of the cooldown
predicate. -/
theorem filter_by_cooldown_as_filter (alerts : List (String × String))
    (state : CooldownState) (cooldown_minutes now : ℚ) :
    filter_by_cooldown alerts state cooldown_minutes now
      = alerts.filter
          (fun p => decide (now - dictGet state p.1 0 ≥ cooldown_minutes * 60)) := by
  unfold filter_by_cooldown
  simpa using
    foldl_push_filter (fun p => now - dictGet state p.1 0 ≥ cooldown_minutes * 60) alerts []

/-- Membership characterisation of the cooldown filter. -/
theorem mem_filter_by_cooldown (alerts : List (String × String))
    (state : CooldownState) (cooldown_minutes now : ℚ) (m msg : String) :
    (m, msg) ∈ filter_by_cooldown alerts state cooldown_minutes now ↔
      (m, msg) ∈ alerts ∧ now - dictGet state m 0 ≥ cooldown_minutes * 60 := by
  rw [filter_by_cooldown_as_filter]
  simp [List.mem_filter]

/-! ### Claims about the cooldown filter (C2, C8, C9) -/

/-- Claim C2 counterexample: with cooldown_minutes = 0 a violation whose
recorded last-alert timestamp lies in the future of the clock reading (here
60 seconds ahead, e.g. after the system clock was stepped back) is
suppressed, because now - last = -60 < 0 = 0 * 60; this contradicts the
claim's clause that cooldown_minutes = 0 disables suppression entirely. -/
theorem filter_by_cooldown_zero_cooldown_cex :
    ("cpu", "CPU high") ∉
      filter_by_cooldown [("cpu", "CPU high")] [("cpu", (1760000060 : ℚ))] 0 1760000000 := by
  rw [mem_filter_by_cooldown]
  norm_num [dictGet, dictLookup]

/-- Claim C2 (amended): filter_by_cooldown includes a violation iff
now - state.get(metric, 0) ≥ cooldown_minutes * 60 (inclusive boundary); a
metric with no prior entry in state passes whenever now ≥
cooldown_minutes * 60 (hence always under a realistic clock and bounded
cooldown); and cooldown_minutes = 0 admits every violation whose recorded
last-alert timestamp is ≤ now (suppression is disabled except for timestamps
in the future of the clock reading). -/
theorem filter_by_cooldown_semantics (alerts : List (String × String))
    (state : CooldownState) (cooldown_minutes now : ℚ) (m msg : String) :
    ((m, msg) ∈ filter_by_cooldown alerts state cooldown_minutes now ↔
      (m, msg) ∈ alerts ∧ now - dictGet state m 0 ≥ cooldown_minutes * 60)
    ∧ (dictLookup state m = none → now ≥ cooldown_minutes * 60 →
        (m, msg) ∈ alerts →
        (m, msg) ∈ filter_by_cooldown alerts state cooldown_minutes now)
    ∧ (cooldown_minutes = 0 → dictGet state m 0 ≤ now →
        (m, msg) ∈ alerts →
        (m, msg) ∈ filter_by_cooldown alerts state cooldown_minutes now) := by
  refine ⟨mem_filter_by_cooldown alerts state cooldown_minutes now m msg, ?_, ?_⟩
  · intro hnone hnow hmem
    rw [mem_filter_by_cooldown]
    refine ⟨hmem, ?_⟩
    unfold dictGet
    rw [hnone]
    simpa using hnow
  · intro hzero hle hmem
    rw [mem_filter_by_cooldown]
    refine ⟨hmem, ?_⟩
    rw [hzero]
    simpa using sub_nonneg.mpr hle

/-- Claim C2 witness: a metric with no prior entry, cooldown 0, clock 5. -/
theorem filter_by_cooldown_semantics_w :
    ("cpu", "CPU high") ∈ filter_by_cooldown [("cpu", "CPU high")] [] 0 5 :=
  (filter_by_cooldown_semantics [("cpu", "CPU high")] [] 0 5 "cpu" "CPU high").2.2
    rfl (by norm_num [dictGet, dictLookup]) (by simp)

/-- Claim C8 counterexample: two calls of filter_by_cooldown with identical
explicit arguments (violations, state, cooldown_minutes) but different values
returned by the internal time.time() read (30 s resp. 60 s after the recorded
alert, with a 1-minute cooldown) return different results, refuting the claim
that the result depends only on the explicit arguments and that the clock is
not read internally. -/
theorem filter_by_cooldown_clock_cex :
    filter_by_cooldown [("cpu", "CPU high")] [("cpu", (1760000000 : ℚ))] 1 1760000030
      ≠ filter_by_cooldown [("cpu", "CPU high")] [("cpu", (1760000000 : ℚ))] 1 1760000060 := by
  rw [filter_by_cooldown_as_filter, filter_by_cooldown_as_filter]
  norm_num [dictGet, dictLookup, List.filter]

/-- Claim C8 (amended): filter_by_cooldown is pure and deterministic given
the clock value read internally: its result is exactly the List.filter of the
cooldown predicate over (violations, state, cooldown_minutes, clock value),
so two calls with identical arguments and identical internal time.time()
readings return identical results; but the clock is read inside the function
(line 208), not injected, so identical explicit arguments alone do not
determine the result. -/
theorem filter_by_cooldown_deterministic (alerts : List (String × String))
    (state : CooldownState) (cooldown_minutes now : ℚ) :
    filter_by_cooldown alerts state cooldown_minutes now
      = alerts.filter
          (fun p => decide (now - dictGet state p.1 0 ≥ cooldown_minutes * 60)) :=
  filter_by_cooldown_as_filter alerts state cooldown_minutes now

/-- Claim C9: the output of filter_by_cooldown is a sublist of its input:
every retained (metric, message) pair is unchanged and relative order is
preserved. -/
theorem filter_by_cooldown_sublist (alerts : List (String × String))
    (state : CooldownState) (cooldown_minutes now : ℚ) :
    List.Sublist (filter_by_cooldown alerts state cooldown_minutes now) alerts := by
  rw [filter_by_cooldown_as_filter]
  exact List.filter_sublist alerts

/-! ### Helper lemmas for the threshold evaluator -/

/-- Keys produced by one non-battery block. -/
theorem mem_dimCheck_keys (k : String) (e : Bool) (v : Option ℚ) (thr : ℚ)
    (name : String) (msg : ℚ → String) :
    k ∈ (dimCheck e v thr name msg).map Prod.fst ↔
      (k = name ∧ e = true ∧ ∃ x, v = some x ∧ x ≥ thr) := by
  unfold dimCheck
  cases e
  · simp
  · cases v with
    | none => simp
    | some x =>
      by_cases h : x ≥ thr <;> simp [h]

/-- Keys produced by the battery block. -/
theorem mem_batteryCheck_keys (k : String) (e : Bool) (b : Option BatteryInfo) (thr : ℚ) :
    k ∈ (batteryCheck e b thr).map Prod.fst ↔
      (k = "battery" ∧ e = true ∧
        ∃ info, b = some info ∧ info.state ≠ "charging" ∧ (info.percent : ℚ) ≤ thr) := by
  unfold batteryCheck
  cases e
  · simp
  · cases b with
    | none => simp
    | some info =>
      by_cases h : info.state ≠ "charging" ∧ (info.percent : ℚ) ≤ thr <;> simp [h]

/-- Master characterisation of the metric ids in the evaluator output. -/
theorem mem_check_thresholds_keys (metrics : MetricSnapshot)
    (thresholds : ThresholdConfig) (checks : EnabledChecks) (k : String) :
    k ∈ (check_thresholds metrics thresholds checks).map Prod.fst ↔
      ((k = "cpu" ∧ checks.cpu = true ∧
          ∃ x, metrics.cpu = some x ∧ x ≥ thresholds.cpu_percent)
        ∨ (k = "memory" ∧ checks.memory = true ∧
            ∃ x, metrics.memory = some x ∧ x ≥ thresholds.memory_percent)
        ∨ (k = "disk" ∧ checks.disk = true ∧
            ∃ x, metrics.disk = some x ∧ x ≥ thresholds.disk_percent)
        ∨ (k = "temperature" ∧ checks.temperature = true ∧
            ∃ x, metrics.temperature = some x ∧ x ≥ thresholds.temperature_c)
        ∨ (k = "battery" ∧ checks.battery = true ∧
            ∃ info, metrics.battery = some info ∧ info.state ≠ "charging" ∧
              (info.percent : ℚ) ≤ thresholds.battery_below)) := by
  unfold check_thresholds
  simp only [List.map_append, List.mem_append, mem_dimCheck_keys, mem_batteryCheck_keys]
  simp only [or_assoc]

/-! ### Claims about the threshold evaluator (C1, C6, C10) -/

/-- Claim C1: for each non-battery dimension, check_thresholds produces a
violation iff the check is enabled, the value is present and value ≥
threshold (inclusive); a dimension with an absent value never appears,
regardless of threshold values.  Exception freedom is captured by the
evaluator being a total function: with the value absent the Python code
short-circuits before touching any threshold. -/
theorem check_thresholds_nonbattery (metrics : MetricSnapshot)
    (thresholds : ThresholdConfig) (checks : EnabledChecks) :
    ("cpu" ∈ (check_thresholds metrics thresholds checks).map Prod.fst ↔
        checks.cpu = true ∧ ∃ x, metrics.cpu = some x ∧ x ≥ thresholds.cpu_percent)
    ∧ (metrics.cpu = none →
        "cpu" ∉ (check_thresholds metrics thresholds checks).map Prod.fst)
    ∧ ("memory" ∈ (check_thresholds metrics thresholds checks).map Prod.fst ↔
        checks.memory = true ∧ ∃ x, metrics.memory = some x ∧ x ≥ thresholds.memory_percent)
    ∧ (metrics.memory = none →
        "memory" ∉ (check_thresholds metrics thresholds checks).map Prod.fst)
    ∧ ("disk" ∈ (check_thresholds metrics thresholds checks).map Prod.fst ↔
        checks.disk = true ∧ ∃ x, metrics.disk = some x ∧ x ≥ thresholds.disk_percent)
    ∧ (metrics.disk = none →
        "disk" ∉ (check_thresholds metrics thresholds checks).map Prod.fst)
    ∧ ("temperature" ∈ (check_thresholds metrics thresholds checks).map Prod.fst ↔
        checks.temperature = true ∧
          ∃ x, metrics.temperature = some x ∧ x ≥ thresholds.temperature_c)
    ∧ (metrics.temperature = none →
        "temperature" ∉ (check_thresholds metrics thresholds checks).map Prod.fst) := by
  have h := mem_check_thresholds_keys metrics thresholds checks
  refine ⟨?_, ?_, ?_, ?_, ?_, ?_, ?_, ?_⟩
  · rw [h "cpu"]; simp
  · intro hnone hmem
    rw [h "cpu"] at hmem
    simp [hnone] at hmem
  · rw [h "memory"]; simp
  · intro hnone hmem
    rw [h "memory"] at hmem
    simp [hnone] at hmem
  · rw [h "disk"]; simp
  · intro hnone hmem
    rw [h "disk"] at hmem
    simp [hnone] at hmem
  · rw [h "temperature"]; simp
  · intro hnone hmem
    rw [h "temperature"] at hmem
    simp [hnone] at hmem

/-- Claim C1 witness: cpu at 95 against threshold 90 fires; the absent memory
value never appears. -/
theorem check_thresholds_nonbattery_w :
    "cpu" ∈ (check_thresholds
        { cpu := some 95, memory := none, disk := some 80, temperature := none,
          battery := none, load := ⟨1, 1, 1⟩ }
        ⟨90, 85, 80, 20, 90⟩ ⟨true, true, true, true, true⟩).map Prod.fst
    ∧ "memory" ∉ (check_thresholds
        { cpu := some 95, memory := none, disk := some 80, temperature := none,
          battery := none, load := ⟨1, 1, 1⟩ }
        ⟨90, 85, 80, 20, 90⟩ ⟨true, true, true, true, true⟩).map Prod.fst := by
  have h := check_thresholds_nonbattery
    { cpu := some 95, memory := none, disk := some 80, temperature := none,
      battery := none, load := ⟨1, 1, 1⟩ }
    ⟨90, 85, 80, 20, 90⟩ ⟨true, true, true, true, true⟩
  exact ⟨h.1.mpr ⟨rfl, 95, rfl, by norm_num⟩, h.2.2.2.1 rfl⟩

/-- Claim C6: with a present battery reading and the battery check enabled,
the battery violation fires iff the state is not "charging" and percent ≤
battery_below (inclusive); a charging battery never fires. -/
theorem check_thresholds_battery_rule (metrics : MetricSnapshot)
    (thresholds : ThresholdConfig) (checks : EnabledChecks) (b : BatteryInfo)
    (hb : metrics.battery = some b) (hc : checks.battery = true) :
    ("battery" ∈ (check_thresholds metrics thresholds checks).map Prod.fst ↔
      (b.state ≠ "charging" ∧ (b.percent : ℚ) ≤ thresholds.battery_below))
    ∧ (b.state = "charging" →
        "battery" ∉ (check_thresholds metrics thresholds checks).map Prod.fst) := by
  have h := mem_check_thresholds_keys metrics thresholds checks "battery"
  constructor
  · rw [h]
    simp [hb, hc]
  · intro hch hmem
    rw [h] at hmem
    simp [hb, hc, hch] at hmem

/-- Claim C6 witness: a discharging battery at exactly the battery_below
threshold (20 = 20) fires. -/
theorem check_thresholds_battery_rule_w :
    "battery" ∈ (check_thresholds
        { cpu := none, memory := none, disk := none, temperature := none,
          battery := some ⟨20, "discharging"⟩, load := ⟨1, 1, 1⟩ }
        ⟨90, 85, 80, 20, 90⟩ ⟨true, true, true, true, true⟩).map Prod.fst :=
  (check_thresholds_battery_rule
      { cpu := none, memory := none, disk := none, temperature := none,
        battery := some ⟨20, "discharging"⟩, load := ⟨1, 1, 1⟩ }
      ⟨90, 85, 80, 20, 90⟩ ⟨true, true, true, true, true⟩
      ⟨20, "discharging"⟩ rfl rfl).1.mpr ⟨by simp, by norm_num⟩

/-- Keys of one non-battery block form a sublist of the singleton of its
name. -/
theorem dimCheck_keys_sublist (e : Bool) (v : Option ℚ) (thr : ℚ) (name : String)
    (msg : ℚ → String) :
    List.Sublist ((dimCheck e v thr name msg).map Prod.fst) [name] := by
  unfold dimCheck
  cases e
  · simp
  · cases v with
    | none => simp
    | some x => by_cases h : x ≥ thr <;> simp [h, List.Sublist.refl]

/-- Keys of the battery block form a sublist of ["battery"]. -/
theorem batteryCheck_keys_sublist (e : Bool) (b : Option BatteryInfo) (thr : ℚ) :
    List.Sublist ((batteryCheck e b thr).map Prod.fst) ["battery"] := by
  unfold batteryCheck
  cases e
  · simp
  · cases b with
    | none => simp
    | some info =>
      by_cases h : info.state ≠ "charging" ∧ (info.percent : ℚ) ≤ thr <;>
        simp [h, List.Sublist.refl]

/-- Claim C10: check_thresholds emits at most one violation per dimension:
its metric ids form a sublist of the five dimension names, hence are pairwise
distinct with length at most 5; the cooldown-filtered ids are likewise
pairwise distinct, so a successful dispatch writes each cooldown-state key at
most once. -/
theorem check_thresholds_keys_nodup (metrics : MetricSnapshot)
    (thresholds : ThresholdConfig) (checks : EnabledChecks) (state : CooldownState)
    (cooldown_minutes now : ℚ) :
    List.Sublist ((check_thresholds metrics thresholds checks).map Prod.fst)
      ["cpu", "memory", "disk", "temperature", "battery"]
    ∧ ((check_thresholds metrics thresholds checks).map Prod.fst).Nodup
    ∧ (check_thresholds metrics thresholds checks).length ≤ 5
    ∧ ((filter_by_cooldown (check_thresholds metrics thresholds checks)
          state cooldown_minutes now).map Prod.fst).Nodup := by
  have hsub : List.Sublist ((check_thresholds metrics thresholds checks).map Prod.fst)
      ["cpu", "memory", "disk", "temperature", "battery"] := by
    unfold check_thresholds
    simp only [List.map_append]
    exact ((((dimCheck_keys_sublist _ _ _ _ _).append
      (dimCheck_keys_sublist _ _ _ _ _)).append
        (dimCheck_keys_sublist _ _ _ _ _)).append
          (dimCheck_keys_sublist _ _ _ _ _)).append
            (batteryCheck_keys_sublist _ _ _)
  have hmaster : (["cpu", "memory", "disk", "temperature", "battery"] :
      List String).Nodup := by decide
  have hnodup := hmaster.sublist hsub
  refine ⟨hsub, hnodup, ?_, ?_⟩
  · have hlen := hsub.length_le
    simpa [List.length_map] using hlen
  · have hfsub : List.Sublist
        ((filter_by_cooldown (check_thresholds metrics thresholds checks)
            state cooldown_minutes now).map Prod.fst)
        ((check_thresholds metrics thresholds checks).map Prod.fst) := by
      rw [filter_by_cooldown_as_filter]
      exact (List.filter_sublist _).map Prod.fst
    exact hnodup.sublist hfsub

/-! ### Helper lemmas for the cooldown state store -/

/-- Lookup in the empty dict. -/
theorem dictLookup_nil (k : String) : dictLookup [] k = none := rfl

/-- Unfolding lookup over a cons cell. -/
theorem dictLookup_cons (p : String × ℚ) (s : CooldownState) (k : String) :
    dictLookup (p :: s) k = if p.1 = k then some p.2 else dictLookup s k := by
  unfold dictLookup
  by_cases h : p.1 = k <;> simp [List.find?_cons, h]

/-- Lookup distributes over append, preferring the left list. -/
theorem dictLookup_append (s t : CooldownState) (k : String) :
    dictLookup (s ++ t) k = (dictLookup s k).or (dictLookup t k) := by
  induction s with
  | nil => simp [dictLookup]
  | cons p rest ih =>
    by_cases h : p.1 = k <;> simp [dictLookup_cons, h, ih]

/-- Replacing the entries of key k does not disturb lookups of other keys. -/
theorem dictLookup_map_replace_ne (s : CooldownState) (k : String) (v : ℚ)
    (kq : String) (hne : kq ≠ k) :
    dictLookup (s.map (fun p => if p.1 = k then (k, v) else p)) kq
      = dictLookup s kq := by
  induction s with
  | nil => rfl
  | cons p rest ih =>
    by_cases h : p.1 = k
    · have hk : ¬ (k = kq) := fun hh => hne hh.symm
      simp [dictLookup_cons, h, hk, ih]
    · by_cases hq : p.1 = kq <;> simp [dictLookup_cons, h, hq, hne, ih]

/-- Replacing the entries of a present key k makes lookup of k return the new
value. -/
theorem dictLookup_map_replace_self (s : CooldownState) (k : String) (v : ℚ)
    (hs : ∃ p ∈ s, p.1 = k) :
    dictLookup (s.map (fun p => if p.1 = k then (k, v) else p)) k = some v := by
  induction s with
  | nil => simp at hs
  | cons p rest ih =>
    by_cases h : p.1 = k
    · simp [dictLookup_cons, h]
    · have hs2 : ∃ q ∈ rest, q.1 = k := by
        rcases hs with ⟨q, hq, hqk⟩
        rcases List.mem_cons.mp hq with hq1 | hq1
        · exact absurd (hq1 ▸ hqk) h
        · exact ⟨q, hq1, hqk⟩
      simp [dictLookup_cons, h, ih hs2]

/-- The effect of Python dict assignment on lookup: the assigned key reads
back the new value, every other key is untouched. -/
theorem dictLookup_dictSet (s : CooldownState) (k : String) (v : ℚ) (kq : String) :
    dictLookup (dictSet s k v) kq = if kq = k then some v else dictLookup s kq := by
  unfold dictSet
  by_cases hany : s.any (fun p => p.1 = k)
  · simp only [hany, if_true]
    by_cases hq : kq = k
    · subst hq
      rw [dictLookup_map_replace_self s kq v (by simpa using hany)]
      simp
    · rw [dictLookup_map_replace_ne s k v kq hq]
      simp [hq]
  · rw [if_neg hany]
    have hnone : dictLookup s k = none := by
      unfold dictLookup
      have hfind : s.find? (fun p => p.1 = k) = none := by
        rw [List.find?_eq_none]
        intro x hx
        simp only [List.any_eq_true] at hany
        simpa using fun hh => hany ⟨x, hx, by simpa using hh⟩
      rw [hfind]
      rfl
    rw [dictLookup_append]
    by_cases hq : kq = k
    · subst hq
      rw [hnone]
      simp [dictLookup_cons]
    · have hk : ¬ (k = kq) := fun hh => hq hh.symm
      simp [hq, dictLookup_cons, hk, dictLookup_nil]

/-- Lookup after the state-advancing loop: the advanced keys read the new
timestamp, every other key is untouched. -/
theorem dictLookup_advance_state (to_send : List (String × String))
    (state : CooldownState) (now : ℚ) (k : String) :
    dictLookup (advance_state state to_send now) k
      = if k ∈ to_send.map Prod.fst then some now else dictLookup state k := by
  induction to_send generalizing state with
  | nil => simp [advance_state]
  | cons p rest ih =>
    unfold advance_state
    simp only [List.foldl_cons]
    rw [show (List.foldl (fun st q => dictSet st q.1 now) (dictSet state p.1 now) rest)
        = advance_state (dictSet state p.1 now) rest now from rfl]
    rw [ih (dictSet state p.1 now)]
    by_cases hk : k ∈ rest.map Prod.fst
    · simp [hk]
    · simp [hk, dictLookup_dictSet]

/-! ### Claim about the dispatch tail of run_monitor (C3) -/

/-- Claim C3: in a monitor run with a non-empty eligible violation set, the
cooldown state is advanced iff delivery succeeds: with no recipient no
delivery call is made and the state is unchanged; on delivery failure the
state is unchanged; on success the outcome is Sent and exactly the eligible
metric ids are set to the post-delivery timestamp, every other entry being
left unchanged. -/
theorem run_monitor_state_update (to_send : List (String × String))
    (recipient : String) (state : CooldownState) (sendOk : Bool) (sendTime : ℚ)
    (_hne : to_send ≠ []) :
    (recipient = "" →
      run_monitor_dispatch to_send recipient state sendOk sendTime
        = (state, DispatchOutcome.noRecipient, false))
    ∧ (recipient ≠ "" → sendOk = false →
      run_monitor_dispatch to_send recipient state sendOk sendTime
        = (state, DispatchOutcome.deliveryFailed, true))
    ∧ (recipient ≠ "" → sendOk = true →
      (run_monitor_dispatch to_send recipient state sendOk sendTime).2.1
          = DispatchOutcome.sent
      ∧ ∀ k, dictLookup (run_monitor_dispatch to_send recipient state sendOk sendTime).1 k
          = if k ∈ to_send.map Prod.fst then some sendTime else dictLookup state k) := by
  refine ⟨?_, ?_, ?_⟩
  · intro hr
    simp [run_monitor_dispatch, hr]
  · intro hr hok
    simp [run_monitor_dispatch, hr, hok]
  · intro hr hok
    constructor
    · simp [run_monitor_dispatch, hr, hok]
    · intro k
      have hd : run_monitor_dispatch to_send recipient state sendOk sendTime
          = (advance_state state to_send sendTime, DispatchOutcome.sent, true) := by
        simp [run_monitor_dispatch, hr, hok]
      rw [hd]
      exact dictLookup_advance_state to_send state sendTime k

/-- Claim C3 witness: a successful delivery of one cpu violation sets the cpu
timestamp to the delivery time and leaves the unrelated disk entry
unchanged; the same inputs with a failed delivery leave the state
untouched. -/
theorem run_monitor_state_update_w :
    dictLookup (run_monitor_dispatch [("cpu", "m")] "+15551234567"
        [("disk", 5)] true 100).1 "cpu" = some 100
    ∧ dictLookup (run_monitor_dispatch [("cpu", "m")] "+15551234567"
        [("disk", 5)] true 100).1 "disk" = some 5
    ∧ run_monitor_dispatch [("cpu", "m")] "+15551234567" [("disk", 5)] false 100
        = ([("disk", 5)], DispatchOutcome.deliveryFailed, true) := by
  have h := run_monitor_state_update [("cpu", "m")] "+15551234567" [("disk", 5)]
    true 100 (by simp)
  have h2 := run_monitor_state_update [("cpu", "m")] "+15551234567" [("disk", 5)]
    false 100 (by simp)
  refine ⟨?_, ?_, ?_⟩
  · have hcpu := (h.2.2 (by simp) rfl).2 "cpu"
    simpa using hcpu
  · have hdisk := (h.2.2 (by simp) rfl).2 "disk"
    simpa [dictLookup_cons] using hdisk
  · exact h2.2.1 (by simp) rfl

/-! ### Claims about sampler, state-store and delivery error handling
(C4, C5, C7) -/

/-- Claim C4 evaluation at the failing input: when the top invocation of
get_cpu_usage exceeds its 10-second timeout, subprocess.TimeoutExpired
propagates uncaught through collect_metrics (and hence aborts run_monitor),
even though every other sampler behaves normally; the claim instead requires
cpu to degrade to "unavailable" with the run continuing.  The claim is right
about the non-raising failure shapes only: an unparsable top output (the
parse returning none) does degrade to an absent value. -/
theorem collect_metrics_cpu_timeout_aborts :
    collect_metrics ⟨true, true, true, true, true⟩
      { parseTop := fun _ => none
        topRun := SubprocBeh.raises "subprocess.TimeoutExpired"
        usedPct := fun _ _ => 50
        sysctlRun := SubprocBeh.completes 0 "17179869184"
        vmstatRun := SubprocBeh.completes 0 ""
        diskPct := 60
        parseTemp := fun _ => none
        parsePM := fun _ => none
        tempRun1 := SubprocBeh.raises "FileNotFoundError"
        tempRun2 := SubprocBeh.raises "FileNotFoundError"
        tempRunPM := SubprocBeh.completes 1 ""
        parseBatt := fun _ => none
        pmsetRun := SubprocBeh.completes 0 ""
        loadAvg := ⟨1, 1, 1⟩ }
      = Except.error "subprocess.TimeoutExpired" := rfl

/-- Claim C5 evaluation at the failing input: when the state file exists but
its contents are unparsable, load_state raises json.JSONDecodeError instead
of returning the empty mapping; the raise propagates out of run_monitor, so
corrupt state is fatal, contradicting the claim (and the spec's StateCorrupt
policy).  Only the absent-file case returns the empty mapping. -/
theorem load_state_corrupt_raises :
    load_state true none = Except.error "json.JSONDecodeError" := rfl

/-- Claim C7 evaluation at the failing input: when osascript exceeds the
30-second timeout of send_imessage, subprocess.TimeoutExpired propagates
uncaught instead of the function returning false; the same holds for a
missing osascript binary (FileNotFoundError).  Only a completed run with
non-zero exit is converted to false. -/
theorem send_imessage_timeout_raises :
    send_imessage "+15551234567" "MacPulse alert" (SubprocBeh.raises "subprocess.TimeoutExpired")
      = Except.error "subprocess.TimeoutExpired" := rfl
